import Mathlib

/-!
# Verification of the vJunos-router boot orchestration (vjunosrouter/docker/launch.py)

Shallow embedding of the boot-orchestration core of `VJUNOSROUTER_vm`:
the `bootstrap_spin` console-polling tick, the configuration bootstrap
performed in `__init__` together with `startup_config`, and the
disk-image selection loop of `__init__`.

Conventions of the embedding:
* The mutable attributes touched by `bootstrap_spin` (`self.spins`,
  `self.running`) form the state `VMState`; each tick maps a state and
  the result of the `tn.expect` call to a new state plus the list of
  externally visible console/process actions performed during the tick
  (`wait_write`, closing the telnet connection, `stop`/`start` of the
  VM process, recording the startup time).
* File contents live in an explicit record `FS`; a field is `none` when
  the file does not exist at that path.
* `subprocess.run` is modelled by the exit code of the child process
  plus the `check` flag of the call site; with `check=True` a non-zero
  exit code raises `CalledProcessError`, otherwise it is ignored.
-/

namespace VJunosRouter

/-- Constructor arguments of `VJUNOSROUTER_vm.__init__` that the

boot-orchestration core can observe (`conn_mode` is passed through
uninterpreted and is omitted). -/
structure VMConfig where
  hostname : String
  username : String
  password : String
deriving DecidableEq, Repr

/-- The mutable session state read and written by `bootstrap_spin`:

`self.spins` and `self.running` (from the `vrnetlab.VM` base class;
`running` starts out `false`, `spins` at `0`). -/
structure VMState where
  spins : Nat
  running : Bool
deriving DecidableEq, Repr

/-- Result of `self.tn.expect([b"FreeBSD/amd64"], 1)`: `matched` is true

exactly when the match object is not `None` (the pattern list has a
single element, so the returned index is `0` iff `matched`); `res` is
the raw console output read during the call. -/
structure ExpectResult where
  matched : Bool
  res : String
deriving DecidableEq, Repr

/-- Externally visible actions a `bootstrap_spin` tick can perform, in

program order: `self.stop()` / `self.start()` on the VM process,
`self.wait_write(cmd, wait)` on the console (with `wait = none` for
`wait=None`), `self.tn.close()`, and the computation of
`datetime.datetime.now() - self.start_time`. -/
inductive Action where
  | stop
  | start
  | wait_write (cmd : String) (wait : Option String)
  | closeConsole
  | recordStartupTime
deriving DecidableEq, Repr

/-- The spin threshold used by `bootstrap_spin` (`if self.spins > 300`). -/
def spinLimit : Nat := 300

/-- `VJUNOSROUTER_vm.bootstrap_spin`, one polling tick.

Source behaviour: if `self.spins > 300`, stop and start the VM process
and return (the expect call never happens); otherwise run
`self.tn.expect([b"FreeBSD/amd64"], 1)`.  On a match, perform the login
sequence — `wait_write("\r", None)`, `wait_write("admin", wait="login:")`,
`wait_write(self.password, wait="Password:")`, `wait_write("\r", None)` —
close the telnet connection, record the startup time, set
`self.running = True` and return.  On no match, set `self.spins = 0`
when the read output was non-empty, then increment `self.spins`. -/
def bootstrap_spin (cfg : VMConfig) (st : VMState) (inp : ExpectResult) :
    VMState × List Action :=
  if st.spins > spinLimit then
    (st, [Action.stop, Action.start])
  else if inp.matched then
    ({ st with running := true },
     [Action.wait_write "\r" none,
      Action.wait_write "admin" (some "login:"),
      Action.wait_write cfg.password (some "Password:"),
      Action.wait_write "\r" none,
      Action.closeConsole,
      Action.recordStartupTime])
  else
    ({ st with spins := (if inp.res ≠ "" then 0 else st.spins) + 1 }, [])

/-- Iterated ticks: `bootstrap_spin` invoked once per scheduler tick on

the successive expect results, accumulating the performed actions. -/
def runTicks (cfg : VMConfig) : VMState → List ExpectResult → VMState × List Action
  | st, [] => (st, [])
  | st, inp :: inps =>
    let r := bootstrap_spin cfg st inp
    let r2 := runTicks cfg r.1 inps
    (r2.1, r.2 ++ r2.2)

/-! ## Configuration bootstrap -/

/-- The files touched by the configuration bootstrap; a field is `none`

when no file exists at the path. `initConf` is `init.conf`,
`startupConfig` is `/config/startup-config.cfg` (the well-known
user-config path `STARTUP_CONFIG_FILE`), `juniperConf` is
`juniper.conf`, the final artifact handed to `make-config.sh`. -/
structure FS where
  initConf : Option String
  startupConfig : Option String
  juniperConf : Option String
deriving DecidableEq, Repr

/-- Python exceptions the configuration bootstrap can raise. -/
inductive ConfigError where
  | templateRead
  | renameMissing
  | calledProcess
deriving DecidableEq, Repr

/-- `subprocess.run` reduced to what the call sites observe: the child

exit code `returncode` and the `check` flag. `CalledProcessError` is
raised exactly when `check` is set and the exit code is non-zero. -/
def subprocessRun (returncode : Int) (check : Bool) : Except ConfigError Unit :=
  if check && returncode != 0 then Except.error ConfigError.calledProcess
  else Except.ok ()

/-- `VJUNOSROUTER_vm.startup_config`.

If `/config/startup-config.cfg` does not exist, `os.rename` moves
`init.conf` to `juniper.conf` (raising if `init.conf` is missing).
Otherwise the shell command `cat init.conf /config/startup-config.cfg
>> juniper.conf` appends the concatenation of the two files to
`juniper.conf` (creating it when absent); this `subprocess.run` call
has no `check` argument, so its exit code `catExit` is ignored.
Finally `subprocess.run(["./make-config.sh", ...], check=True)` builds
the config disk; a non-zero `mkConfigExit` raises. -/
def startup_config (fs : FS) (catExit mkConfigExit : Int) : Except ConfigError FS :=
  if fs.startupConfig.isNone then
    match fs.initConf with
    | none => Except.error ConfigError.renameMissing
    | some c =>
      let fs1 : FS := { initConf := none, startupConfig := fs.startupConfig,
                        juniperConf := some c }
      (subprocessRun mkConfigExit true).map (fun _ => fs1)
  else
    let appended := fs.initConf.getD "" ++ fs.startupConfig.getD ""
    let fs1 : FS := { fs with
      juniperConf := some (match fs.juniperConf with
        | none => appended
        | some j => j ++ appended) }
    (subprocessRun catExit false).bind fun _ =>
      (subprocessRun mkConfigExit true).map (fun _ => fs1)

/-- Python `str.replace` on character lists: replace the leftmost

non-overlapping occurrences of `pat` with `repl`, left to right.  The
fuel argument (instantiated with the length of the list) makes the
recursion structural so that it evaluates inside proofs; every step
consumes at least one character when `pat` is non-empty, which is the
case at the only call site (`pat = "{HOSTNAME}"`). -/
def pyReplaceAux (pat repl : List Char) : Nat → List Char → List Char
  | _, [] => []
  | 0, l => l
  | fuel + 1, c :: rest =>
    if pat.isPrefixOf (c :: rest) then
      repl ++ pyReplaceAux pat repl fuel (List.drop (pat.length - 1) rest)
    else
      c :: pyReplaceAux pat repl fuel rest

/-- Python `s.replace(pat, repl)` for a non-empty `pat`. -/
def pyReplace (s pat repl : String) : String :=
  { data := pyReplaceAux pat.data repl.data s.data.length s.data }

/-- The configuration portion of `VJUNOSROUTER_vm.__init__` followed by

`startup_config`: read `init.conf` (raising `FileNotFoundError` when it
is missing), replace every occurrence of `{HOSTNAME}` with the node's
hostname (Python `str.replace` replaces all occurrences), write the
result back to `init.conf`, then run `startup_config`. -/
def configBootstrap (fs : FS) (hostname : String) (catExit mkConfigExit : Int) :
    Except ConfigError FS :=
  match fs.initConf with
  | none => Except.error ConfigError.templateRead
  | some cfg =>
    let newCfg := pyReplace cfg "{HOSTNAME}" hostname
    startup_config { fs with initConf := some newCfg } catExit mkConfigExit

/-! ## Disk-image selection -/

/-- Boolean matcher for `re.search(".qcow2$", e)`: a match needs one

arbitrary non-newline character (the `.`) followed by the literal
`qcow2` at the end of the string.  Python's `$` also matches just
before a trailing `'\n'`, which the second pattern below covers. -/
def qcow2Suffix : List Char → Bool
  | [c, 'q', 'c', 'o', 'w', '2'] => c != '\n'
  | [c, 'q', 'c', 'o', 'w', '2', '\n'] => c != '\n'
  | _ :: rest => qcow2Suffix rest
  | [] => false

/-- `re.search(".qcow2$", e)` is truthy, for a directory entry `e`. -/
def qcow2Match (e : String) : Bool :=
  qcow2Suffix e.data

/-- The selection loop of `VJUNOSROUTER_vm.__init__`:

`for e in os.listdir("/"): if re.search(".qcow2$", e): disk_image = "/" + e`.
The local `disk_image` starts unbound (`none`) and each matching entry
overwrites it, so the last match in listing order wins. -/
def findDiskImage (entries : List String) : Option String :=
  entries.foldl (fun disk e => if qcow2Match e then some ("/" ++ e) else disk) none

/-- Reading the loop's result: when no entry matched, `disk_image` was

never assigned and the `super().__init__(..., disk_image=disk_image, ...)`
call raises `UnboundLocalError` before any VM setup runs. -/
inductive InitError where
  | unboundLocalDiskImage
deriving DecidableEq, Repr

/-- Construction up to the `super().__init__` call: either the chosen

disk image path or the `UnboundLocalError`. -/
def chooseDiskImage (entries : List String) : Except InitError String :=
  match findDiskImage entries with
  | none => Except.error InitError.unboundLocalDiskImage
  | some d => Except.ok d

/-- Sample constructor arguments (the defaults of the CLI entry point). -/
def sampleCfg : VMConfig :=
  { hostname := "vr-VJUNOSROUTER", username := "vrnetlab", password := "VR-netlab9" }

/-! ## Basic tick lemmas -/

/-- Within the spin limit and without a pattern match, a tick performs

no action and only updates the spin counter: reset to `0` on non-empty
output, then unconditionally incremented. -/
theorem bootstrap_spin_no_match (cfg : VMConfig) (st : VMState) (inp : ExpectResult)
    (h1 : st.spins ≤ spinLimit) (h2 : inp.matched = false) :
    bootstrap_spin cfg st inp =
      ({ st with spins := (if inp.res ≠ "" then 0 else st.spins) + 1 }, []) := by
  have hn : ¬ st.spins > spinLimit := Nat.not_lt.mpr h1
  simp [bootstrap_spin, hn, h2]

/-- Within the spin limit, a matching tick performs the login sequence,

closes the console, records the startup time and sets `running`. -/
theorem bootstrap_spin_match (cfg : VMConfig) (st : VMState) (inp : ExpectResult)
    (h1 : st.spins ≤ spinLimit) (h2 : inp.matched = true) :
    bootstrap_spin cfg st inp =
      ({ st with running := true },
       [Action.wait_write "\r" none,
        Action.wait_write "admin" (some "login:"),
        Action.wait_write cfg.password (some "Password:"),
        Action.wait_write "\r" none,
        Action.closeConsole,
        Action.recordStartupTime]) := by
  have hn : ¬ st.spins > spinLimit := Nat.not_lt.mpr h1
  simp [bootstrap_spin, hn, h2]

/-- A tick on non-empty non-matching output leaves the counter at `1`. -/
theorem bootstrap_spin_nonempty_no_match (cfg : VMConfig) (st : VMState)
    (inp : ExpectResult) (h1 : st.spins ≤ spinLimit) (h2 : inp.matched = false)
    (h3 : inp.res ≠ "") :
    bootstrap_spin cfg st inp = ({ st with spins := 1 }, []) := by
  rw [bootstrap_spin_no_match cfg st inp h1 h2]
  simp [h3]

/-! ## Claim theorems: boot console monitor -/

/-- C1, counterexample: on a tick whose console read matches no boot

marker but returns non-empty output, the spin counter does not end the
tick at `0` — the source resets `self.spins = 0` and then still runs
the unconditional `self.spins += 1`, so the counter ends at `1`. -/
theorem c1_counterexample :
    (bootstrap_spin sampleCfg { spins := 0, running := false }
        { matched := false, res := "Booting..." }).1.spins ≠ 0 ∧
    (bootstrap_spin sampleCfg { spins := 0, running := false }
        { matched := false, res := "Booting..." }).1.spins = 1 := by
  decide

/-- C1 (amended): on every tick within the spin limit whose read

matches no boot marker but returns non-empty output, the spin counter
ends the tick equal to 1 (reset to 0 for progress, then incremented);
consequently, over any sequence of such ticks starting within the spin
limit, the counter never exceeds 1 at a tick boundary and the timeout
action (stop/start of the VM process) is never performed. -/
theorem c1_nonempty_output_spins_stay_low (cfg : VMConfig) (st : VMState)
    (inps : List ExpectResult) (h0 : st.spins ≤ spinLimit)
    (hall : ∀ inp ∈ inps, inp.matched = false ∧ inp.res ≠ "") :
    Action.stop ∉ (runTicks cfg st inps).2 ∧
    (inps ≠ [] → (runTicks cfg st inps).1.spins = 1) := by
  induction inps generalizing st with
  | nil => simp [runTicks]
  | cons inp inps ih =>
    obtain ⟨hm, hr⟩ := hall inp (List.mem_cons_self ..)
    have hstep : bootstrap_spin cfg st inp = ({ st with spins := 1 }, []) :=
      bootstrap_spin_nonempty_no_match cfg st inp h0 hm hr
    have hrun : runTicks cfg st (inp :: inps) =
        runTicks cfg { st with spins := 1 } inps := by
      simp [runTicks, hstep]
    have ih1 := ih { st with spins := 1 } (by simp [spinLimit])
      (fun i hi => hall i (List.mem_cons_of_mem _ hi))
    rw [hrun]
    refine ⟨ih1.1, fun _ => ?_⟩
    cases inps with
    | nil => simp [runTicks]
    | cons i2 is2 => exact ih1.2 (by simp)

/-- C1 witness: one non-empty non-matching tick from a fresh session. -/
theorem c1_nonempty_output_spins_stay_low_witness :
    Action.stop ∉ (runTicks sampleCfg { spins := 0, running := false }
      [{ matched := false, res := "Booting..." }]).2 ∧
    (runTicks sampleCfg { spins := 0, running := false }
      [{ matched := false, res := "Booting..." }]).1.spins = 1 := by
  have h := c1_nonempty_output_spins_stay_low sampleCfg { spins := 0, running := false }
    [{ matched := false, res := "Booting..." }] (by decide) (by decide)
  exact ⟨h.1, h.2 (by decide)⟩

/-- C2: a tick performs the timeout action — `self.stop()` then

`self.start()` and nothing else, leaving the session state untouched —
exactly when the spin counter strictly exceeds the limit `300` at the
start of the tick. -/
theorem c2_timeout_iff (cfg : VMConfig) (st : VMState) (inp : ExpectResult) :
    bootstrap_spin cfg st inp = (st, [Action.stop, Action.start]) ↔
      spinLimit < st.spins := by
  unfold bootstrap_spin
  split
  · next h => simp [h]
  · next h =>
    split <;> simp [h]

/-- C3, counterexample: with the CLI-default credentials

(`username="vrnetlab"`), the write gated on the `"login:"` prompt sends
the literal `"admin"`, not the caller-supplied username. -/
theorem c3_counterexample :
    sampleCfg.username = "vrnetlab" ∧
    Action.wait_write "vrnetlab" (some "login:") ∉
      (bootstrap_spin sampleCfg { spins := 0, running := false }
        { matched := true, res := "FreeBSD/amd64" }).2 ∧
    Action.wait_write "admin" (some "login:") ∈
      (bootstrap_spin sampleCfg { spins := 0, running := false }
        { matched := true, res := "FreeBSD/amd64" }).2 := by
  decide

/-- C3 (amended): in every login sequence performed after the boot

marker is matched, the username written to the console is the fixed
literal `"admin"` regardless of the caller-supplied username; only the
password written is the one the VM was constructed with. -/
theorem c3_login_username_is_fixed_admin (cfg : VMConfig) (st : VMState)
    (inp : ExpectResult) (h1 : st.spins ≤ spinLimit) (h2 : inp.matched = true) :
    (∀ s : String, Action.wait_write s (some "login:") ∈
      (bootstrap_spin cfg st inp).2 ↔ s = "admin") ∧
    (∀ s : String, Action.wait_write s (some "Password:") ∈
      (bootstrap_spin cfg st inp).2 ↔ s = cfg.password) := by
  rw [bootstrap_spin_match cfg st inp h1 h2]
  constructor <;> intro s <;> simp

/-- C3 witness: the `"admin"` write is present in a matched tick. -/
theorem c3_login_username_is_fixed_admin_witness :
    Action.wait_write "admin" (some "login:") ∈
      (bootstrap_spin sampleCfg { spins := 0, running := false }
        { matched := true, res := "FreeBSD/amd64" }).2 :=
  ((c3_login_username_is_fixed_admin sampleCfg { spins := 0, running := false }
      { matched := true, res := "FreeBSD/amd64" } (by decide) rfl).1 "admin").mpr rfl

/-- C4: every tick whose console read matches the boot-completion

marker synchronously performs, in order, a carriage return, the
username write gated on `"login:"`, the password write gated on
`"Password:"`, a final carriage return, then closes the console handle
exactly once, records the elapsed time since session start, and sets
`running` to true before returning. -/
theorem c4_boot_marker_login_sequence (cfg : VMConfig) (st : VMState)
    (inp : ExpectResult) (h1 : st.spins ≤ spinLimit) (h2 : inp.matched = true) :
    bootstrap_spin cfg st inp =
      ({ st with running := true },
       [Action.wait_write "\r" none,
        Action.wait_write "admin" (some "login:"),
        Action.wait_write cfg.password (some "Password:"),
        Action.wait_write "\r" none,
        Action.closeConsole,
        Action.recordStartupTime]) ∧
    (bootstrap_spin cfg st inp).2.count Action.closeConsole = 1 ∧
    (bootstrap_spin cfg st inp).1.running = true := by
  have h := bootstrap_spin_match cfg st inp h1 h2
  refine ⟨h, ?_, ?_⟩ <;> (rw [h]; try rfl)

/-- C4 witness: a matched tick from a fresh session. -/
theorem c4_boot_marker_login_sequence_witness :
    (bootstrap_spin sampleCfg { spins := 0, running := false }
      { matched := true, res := "FreeBSD/amd64" }).1.running = true ∧
    (bootstrap_spin sampleCfg { spins := 0, running := false }
      { matched := true, res := "FreeBSD/amd64" }).2.count Action.closeConsole = 1 := by
  have h := c4_boot_marker_login_sequence sampleCfg { spins := 0, running := false }
    { matched := true, res := "FreeBSD/amd64" } (by decide) rfl
  exact ⟨h.2.2, h.2.1⟩

/-- C5: no tick ever assigns `running := false` — a tick either leaves

`running` unchanged or sets it to true — so once `running` is true it
remains true over every subsequent sequence of ticks of the session. -/
theorem c5_running_never_reverts :
    (∀ (cfg : VMConfig) (st : VMState) (inp : ExpectResult),
      (bootstrap_spin cfg st inp).1.running = st.running ∨
      (bootstrap_spin cfg st inp).1.running = true) ∧
    (∀ (cfg : VMConfig) (st : VMState) (inps : List ExpectResult),
      st.running = true → (runTicks cfg st inps).1.running = true) := by
  have hstep : ∀ (cfg : VMConfig) (st : VMState) (inp : ExpectResult),
      (bootstrap_spin cfg st inp).1.running = st.running ∨
      (bootstrap_spin cfg st inp).1.running = true := by
    intro cfg st inp
    unfold bootstrap_spin
    split
    · exact Or.inl rfl
    · split
      · exact Or.inr rfl
      · exact Or.inl rfl
  refine ⟨hstep, ?_⟩
  intro cfg st inps
  induction inps generalizing st with
  | nil =>
    intro h
    simpa [runTicks] using h
  | cons inp inps ih =>
    intro h
    have h1 : (bootstrap_spin cfg st inp).1.running = true := by
      rcases hstep cfg st inp with h2 | h2
      · rw [h2, h]
      · exact h2
    simpa [runTicks] using ih (bootstrap_spin cfg st inp).1 h1

/-- C5 witness: `running` stays true across a further tick. -/
theorem c5_running_never_reverts_witness :
    (runTicks sampleCfg { spins := 0, running := true }
      [{ matched := false, res := "" }]).1.running = true :=
  c5_running_never_reverts.2 sampleCfg { spins := 0, running := true }
    [{ matched := false, res := "" }] rfl

/-- C6: a tick whose console read does not match the boot-completion

marker performs no console write at all (in particular the login
sequence is never started); this also covers the timeout branch, in
which no read happens and only the VM process is stopped/started. -/
theorem c6_no_console_write_without_match (cfg : VMConfig) (st : VMState)
    (inp : ExpectResult) (h : inp.matched = false) :
    ∀ (s : String) (w : Option String),
      Action.wait_write s w ∉ (bootstrap_spin cfg st inp).2 := by
  intro s w
  unfold bootstrap_spin
  split
  · simp
  · split
    · next hm => simp [h] at hm
    · simp

/-- C6 witness: no login write on a non-matching tick. -/
theorem c6_no_console_write_without_match_witness :
    Action.wait_write "admin" (some "login:") ∉
      (bootstrap_spin sampleCfg { spins := 0, running := false }
        { matched := false, res := "output" }).2 :=
  c6_no_console_write_without_match sampleCfg { spins := 0, running := false }
    { matched := false, res := "output" } rfl "admin" (some "login:")

/-! ## Claim theorems: config bootstrap -/

/-- C7: starting from a filesystem holding the baseline template and no

`juniper.conf`, the final artifact equals the template with every
`{HOSTNAME}` occurrence replaced by the hostname when no user config
file exists at `/config/startup-config.cfg`, and equals that
substituted baseline followed by the user config file, in that order,
when one exists (the image-build step exiting 0). -/
theorem c7_config_artifact (tmpl hostname : String) (user : Option String)
    (catExit : Int) :
    configBootstrap
        { initConf := some tmpl, startupConfig := user, juniperConf := none }
        hostname catExit 0 =
      match user with
      | none => Except.ok
          { initConf := none, startupConfig := none,
            juniperConf := some (pyReplace tmpl "{HOSTNAME}" hostname) }
      | some u => Except.ok
          { initConf := some (pyReplace tmpl "{HOSTNAME}" hostname),
            startupConfig := some u,
            juniperConf := some (pyReplace tmpl "{HOSTNAME}" hostname ++ u) } := by
  cases user with
  | none => rfl
  | some u => rfl

/-- C8, counterexample: with a user config file present and the shell

concatenation exiting 1, `startup_config` still returns success — the
non-zero result of the `cat` step is not surfaced to the caller. -/
theorem c8_counterexample :
    startup_config
        { initConf := some "base", startupConfig := some "user",
          juniperConf := none } 1 0 =
      Except.ok
        { initConf := some "base", startupConfig := some "user",
          juniperConf := some "baseuser" } := rfl

/-- C8 (amended): the exit code of the concatenation step is silently

ignored — the `subprocess.run` call that merges the baseline and the
user configuration has no `check` argument, so the outcome of
`startup_config` is entirely independent of that exit code. -/
theorem c8_cat_failure_ignored (fs : FS) (catExit1 catExit2 mkConfigExit : Int) :
    startup_config fs catExit1 mkConfigExit =
      startup_config fs catExit2 mkConfigExit := by
  unfold startup_config
  split
  · rfl
  · simp [subprocessRun]

/-- C9, counterexample: running the config bootstrap a second time with

the same hostname and no user config file fails with the template-read
error instead of succeeding — the first run renamed `init.conf` away. -/
theorem c9_counterexample :
    (configBootstrap
        { initConf := some "hostname {HOSTNAME};", startupConfig := none,
          juniperConf := none } "vr-edge1" 0 0).bind
      (fun fs1 => configBootstrap fs1 "vr-edge1" 0 0) =
    Except.error ConfigError.templateRead := rfl

/-- C9 (amended): with no user config file present, a first successful

run of the config bootstrap renames the baseline template `init.conf`
to `juniper.conf`, so a second run with the same hostname always fails
with the template-read error (`FileNotFoundError` on `init.conf`): the
bootstrap is not re-runnable, for any exit codes of the second run. -/
theorem c9_second_run_fails (tmpl hostname : String)
    (catExit1 catExit2 mkConfigExit2 : Int) :
    (configBootstrap
        { initConf := some tmpl, startupConfig := none,
          juniperConf := none } hostname catExit1 0).bind
      (fun fs1 => configBootstrap fs1 hostname catExit2 mkConfigExit2) =
    Except.error ConfigError.templateRead := rfl

/-! ## Claim theorems: disk-image selection -/

/-- The selection fold never moves off `acc` when no entry matches. -/
theorem findDiskImage_foldl_no_match (l : List String) (acc : Option String)
    (h : ∀ x ∈ l, qcow2Match x = false) :
    l.foldl (fun disk e => if qcow2Match e then some ("/" ++ e) else disk) acc
      = acc := by
  induction l generalizing acc with
  | nil => rfl
  | cons a l ih =>
    have ha : qcow2Match a = false := h a (List.mem_cons_self ..)
    rw [List.foldl_cons]
    simp only [ha, Bool.false_eq_true, if_false]
    exact ih acc (fun x hx => h x (List.mem_cons_of_mem _ hx))

/-- C10: when no entry of the root directory listing matches the

pattern `".qcow2$"`, construction fails with the unbound-local error
before any VM setup runs; when the listing decomposes as `l1 ++ e :: l2`
with `e` matching and nothing after it matching, the chosen disk image
is `"/" ++ e`, i.e. the last matching entry in listing order. -/
theorem c10_disk_image_selection (entries l1 l2 : List String) (e : String) :
    ((∀ x ∈ entries, qcow2Match x = false) →
      chooseDiskImage entries = Except.error InitError.unboundLocalDiskImage) ∧
    (qcow2Match e = true → (∀ x ∈ l2, qcow2Match x = false) →
      chooseDiskImage (l1 ++ e :: l2) = Except.ok ("/" ++ e)) := by
  constructor
  · intro h
    unfold chooseDiskImage findDiskImage
    rw [findDiskImage_foldl_no_match entries none h]
  · intro he hl2
    unfold chooseDiskImage findDiskImage
    rw [List.foldl_append, List.foldl_cons]
    simp only [he, if_true]
    rw [findDiskImage_foldl_no_match l2 _ hl2]

/-- C10 witness: an empty match set fails; with two matching entries

the later one is chosen. -/
theorem c10_disk_image_selection_witness :
    chooseDiskImage ["foo.txt"] = Except.error InitError.unboundLocalDiskImage ∧
    chooseDiskImage ["a.qcow2", "b.qcow2", "c.txt"] = Except.ok "/b.qcow2" := by
  constructor
  · exact (c10_disk_image_selection ["foo.txt"] [] [] "x").1 (by decide)
  · exact (c10_disk_image_selection [] ["a.qcow2"] ["c.txt"] "b.qcow2").2
      (by decide) (by decide)

end VJunosRouter
